import Mathlib

/-!
Verification of the configuration-resolution and dispatch logic of
`tensor2tensor/trax/rlax/ppo_main.py` (PPO binary over a gym env).

The Python module is shallowly embedded: the global flag registry becomes an
immutable `Flags` record, environment construction becomes a function from
flags and batch size to an `EnvHandle` descriptor (with Python exceptions
modelled by `Except PyError`), the network/optimizer factories produced by
`functools.partial` become first-order records capturing exactly the data the
partial application closes over, and the process-wide jax backend
configuration becomes an explicit `BackendConfig` threaded through `main`.
-/

namespace PpoMain

/-- Python exceptions that the embedded code paths can raise:
`typeError` for operations on `None` (e.g. `"Pong" in None` or `int(None)`),
`assertionError` for a failed `assert`, `valueError` for `int()` on a
malformed string. -/
inductive PyError
  | typeError
  | assertionError
  | valueError
  deriving DecidableEq, Repr

/-- ASCII whitespace stripped by Python `int(str)`. -/
def pyIsSpace (c : Char) : Bool :=
  c = ' ' || c = '\t' || c = '\n' || c = '\r' || c = '\x0b' || c = '\x0c'

/-- Continuation of Python decimal digit parsing: after at least one digit,
further digits may follow, with single underscores allowed only between two
digits (Python 3 numeric-literal rule used by `int(str)`). -/
def pyDigitsAux (acc : Nat) : List Char → Option Nat
  | [] => some acc
  | '_' :: c :: cs =>
      if c.isDigit then pyDigitsAux (acc * 10 + (c.toNat - 48)) cs else none
  | c :: cs =>
      if c.isDigit then pyDigitsAux (acc * 10 + (c.toNat - 48)) cs else none

/-- Python decimal digit run: nonempty, starts with a digit. -/
def pyDigitsStart : List Char → Option Nat
  | [] => none
  | c :: cs => if c.isDigit then pyDigitsAux (c.toNat - 48) cs else none

/-- The string accepted by Python `int(str)` in base 10: optional surrounding
whitespace, an optional sign, then a nonempty digit run (underscores only
between digits). Returns `none` where `int()` raises `ValueError`. -/
def pyParseIntString (s : String) : Option Int :=
  let cs := ((s.data.dropWhile pyIsSpace).reverse.dropWhile pyIsSpace).reverse
  match cs with
  | '+' :: rest => (pyDigitsStart rest).map Int.ofNat
  | '-' :: rest => (pyDigitsStart rest).map (fun n => -(Int.ofNat n : Int))
  | rest => (pyDigitsStart rest).map Int.ofNat

/-- Python `int(x)` where `x` is an optional string (`None` or `str`):
`int(None)` raises `TypeError`, a malformed string raises `ValueError`. -/
def pyInt : Option String → Except PyError Int
  | none => .error .typeError
  | some s =>
      match pyParseIntString s with
      | some n => .ok n
      | none => .error .valueError

/-- Helper for Python substring membership: does `needle` occur in the tail
list starting at each successive position? -/
def listContains (needle : List Char) : List Char → Bool
  | [] => needle.isEmpty
  | x :: xs => List.isPrefixOf needle (x :: xs) || listContains needle xs

/-- Python `needle in hay` on strings: substring containment. -/
def pyIn (needle hay : String) : Bool :=
  listContains needle.data hay.data

/-- Python truthiness of an optional string flag: `None` and `""` are falsy,
any nonempty string is truthy. -/
def strTruthy : Option String → Bool
  | none => false
  | some s => !s.isEmpty

/-- The flat flag registry declared by `ppo_main.py` (`flags.DEFINE_*`),
as one immutable record. `DEFINE_string` flags defaulting to `None` are
`Option String`; `DEFINE_integer` flags defaulting to `None` are
`Option Int`. -/
structure Flags where
  env_name : Option String
  env_problem_name : Option String
  epochs : Int
  random_seed : Option String
  batch_size : Int
  boundary : Int
  max_timestep : Option Int
  truncation_timestep : Option Int
  jax_debug_nans : Bool
  disable_jit : Bool
  resize : Bool
  resized_height : Int
  resized_width : Int
  combined_network : Bool
  two_towers : Bool
  flatten_dims : Bool
  num_optimizer_steps : Int
  policy_only_num_optimizer_steps : Int
  value_only_num_optimizer_steps : Int
  print_every_optimizer_steps : Int
  learning_rate : Float
  policy_only_learning_rate : Float
  value_only_learning_rate : Float
  target_kl : Float
  value_coef : Float
  entropy_coef : Float
  gamma : Float
  lambda_ : Float
  epsilon : Float
  output_dir : String
  use_tpu : Bool
  enable_early_stopping : Bool
  xm : Bool
  eval_every_n : Int
  eval_batch_size : Int

/-- The default value of every flag, exactly as declared by the
`flags.DEFINE_*` calls in the source. -/
def default_flags : Flags where
  env_name := none
  env_problem_name := none
  epochs := 100
  random_seed := none
  batch_size := 32
  boundary := 20
  max_timestep := none
  truncation_timestep := none
  jax_debug_nans := false
  disable_jit := false
  resize := false
  resized_height := 105
  resized_width := 80
  combined_network := false
  two_towers := true
  flatten_dims := false
  num_optimizer_steps := 100
  policy_only_num_optimizer_steps := 80
  value_only_num_optimizer_steps := 80
  print_every_optimizer_steps := 1
  learning_rate := 1e-3
  policy_only_learning_rate := 3e-4
  value_only_learning_rate := 1e-3
  target_kl := 0.01
  value_coef := 1.0
  entropy_coef := 0.01
  gamma := 0.99
  lambda_ := 0.95
  epsilon := 0.1
  output_dir := ""
  use_tpu := false
  enable_early_stopping := true
  xm := false
  eval_every_n := 100
  eval_batch_size := 4

/-- Layer descriptors appearing in `common_layers` / `atari_layers`:
`atari_cnn.AtariCnn()`, `layers.Div(divisor=...)`,
`layers.Flatten(num_axis_to_keep=...)`, `layers.Dense(units)`,
`layers.Tanh()`. -/
inductive Layer
  | AtariCnn
  | Div (divisor : Float)
  | Flatten (num_axis_to_keep : Nat)
  | Dense (units : Nat)
  | Tanh
  deriving Repr

/-- `atari_layers()`: the fixed convolutional stack. -/
def atari_layers : List Layer := [Layer.AtariCnn]

/-- `common_layers()`: reads `FLAGS.env_problem_name`; `"Pong" in None`
raises `TypeError`. Otherwise, a Pong-family name gets `atari_layers()`,
every other name gets an optional `[Div(255.0), Flatten(2)]` prefix
(when `flatten_dims`) followed by the fixed dense/tanh stack. -/
def common_layers (F : Flags) : Except PyError (List Layer) :=
  match F.env_problem_name with
  | none => .error .typeError
  | some name =>
      if pyIn "Pong" name then .ok atari_layers
      else
        let cur_layers :=
          if F.flatten_dims then [Layer.Div 255.0, Layer.Flatten 2] else []
        let body := [Layer.Dense 64, Layer.Tanh, Layer.Dense 64, Layer.Tanh]
        .ok (cur_layers ++ body)

/-- The only output dtype the source ever forces: `onp.int32` (when
`use_tpu`). -/
inductive Dtype
  | int32
  deriving DecidableEq, Repr

/-- The keyword options `make_env` passes to
`functools.partial(gym_utils.gym_env_wrapper, **{...})`. -/
structure WrapperConfig where
  rl_env_max_episode_steps : Option Int
  maxskip_env : Bool
  rendered_env : Bool
  rendered_env_resize_to : Int × Int
  sticky_actions : Bool
  output_dtype : Option Dtype
  deriving DecidableEq, Repr

/-- The environment handle `make_env` constructs: a bare `gym.make(name)`
env, a plain batched `env_problem.EnvProblem`, or a
`rendered_env_problem.RenderedEnvProblem` with its wrapper configuration.
Each constructor records exactly the arguments the source passes. -/
inductive EnvHandle
  | gymEnv (name : String)
  | envProblem (base_env_name : String) (batch_size : Int)
      (reward_range : Int × Int)
  | renderedEnvProblem (base_env_name : String) (batch_size : Int)
      (env_wrapper_fn : WrapperConfig) (reward_range : Int × Int)
  deriving DecidableEq, Repr

/-- `make_env(batch_size=8)`: precedence to `FLAGS.env_name`, then
`assert FLAGS.env_problem_name` (Python truthiness), then dispatch on
`FLAGS.resize`. -/
def make_env (F : Flags) (batch_size : Int) : Except PyError EnvHandle :=
  if strTruthy F.env_name then
    .ok (.gymEnv (F.env_name.getD ""))
  else if !strTruthy F.env_problem_name then
    .error .assertionError
  else
    let name := F.env_problem_name.getD ""
    if !F.resize then
      .ok (.envProblem name batch_size (-1, 1))
    else
      .ok (.renderedEnvProblem name batch_size
        { rl_env_max_episode_steps := F.max_timestep
          maxskip_env := true
          rendered_env := true
          rendered_env_resize_to := (F.resized_height, F.resized_width)
          sticky_actions := false
          output_dtype := if F.use_tpu then some .int32 else none }
        (-1, 1))

/-- The value of `functools.partial(ppo.optimizer_fun, step_size=lr)`:
`ppo.optimizer_fun` is external and opaque, so the factory is characterised
by the step size it closes over. -/
structure OptimizerFactory where
  step_size : Float
  deriving Repr

/-- `get_optimizer_fun(learning_rate)`. -/
def get_optimizer_fun (learning_rate : Float) : OptimizerFactory :=
  { step_size := learning_rate }

/-- `functools.partial(ppo.policy_and_value_net, bottom_layers_fn=common_layers,
two_towers=FLAGS.two_towers)`: `bottom_layers_fn` is always the (uncalled)
`common_layers` function, so only `two_towers` varies. -/
structure PolicyAndValueNetFun where
  two_towers : Bool
  deriving Repr

/-- `functools.partial(ppo.policy_net, bottom_layers=common_layers())`:
closes over the already-evaluated layer list. -/
structure PolicyNetFun where
  bottom_layers : List Layer
  deriving Repr

/-- `functools.partial(ppo.value_net, bottom_layers=common_layers())`. -/
structure ValueNetFun where
  bottom_layers : List Layer
  deriving Repr

/-- The six locals of `run_training_loop` that are initialised to `None`
and selectively populated before the `ppo.training_loop` call. -/
structure NetworkBundle where
  policy_net_fun : Option PolicyNetFun
  value_net_fun : Option ValueNetFun
  policy_and_value_net_fun : Option PolicyAndValueNetFun
  policy_optimizer_fun : Option OptimizerFactory
  value_optimizer_fun : Option OptimizerFactory
  policy_and_value_optimizer_fun : Option OptimizerFactory
  deriving Repr

/-- The network/optimizer dispatch inside `run_training_loop`: all six
fields start `None`; the `FLAGS.combined_network` branch fills exactly the
combined pair, the other branch evaluates `common_layers()` twice and fills
exactly the four separate fields. -/
def resolve_network_bundle (F : Flags) : Except PyError NetworkBundle :=
  if F.combined_network then
    .ok { policy_net_fun := none
          value_net_fun := none
          policy_and_value_net_fun := some { two_towers := F.two_towers }
          policy_optimizer_fun := none
          value_optimizer_fun := none
          policy_and_value_optimizer_fun :=
            some (get_optimizer_fun F.learning_rate) }
  else
    match common_layers F with
    | .error e => .error e
    | .ok pl =>
        match common_layers F with
        | .error e => .error e
        | .ok vl =>
            .ok { policy_net_fun := some { bottom_layers := pl }
                  value_net_fun := some { bottom_layers := vl }
                  policy_and_value_net_fun := none
                  policy_optimizer_fun :=
                    some (get_optimizer_fun F.policy_only_learning_rate)
                  value_optimizer_fun :=
                    some (get_optimizer_fun F.value_only_learning_rate)
                  policy_and_value_optimizer_fun := none }

/-- The seed resolution in `run_training_loop`:
`random_seed = None; try: random_seed = int(FLAGS.random_seed) except: pass`.
Every exception from `int()` (TypeError on `None`, ValueError on a
malformed string) is swallowed, leaving `None`. -/
def resolve_random_seed (F : Flags) : Option Int :=
  match pyInt F.random_seed with
  | .ok n => some n
  | .error _ => none

/-- The ambient jax backend configuration mutated by `main`:
`config.update("jax_debug_nans", ...)`, `config.update("jax_platform_name",
...)`, and the JIT toggle scoped by `with jax.disable_jit():`. -/
structure BackendConfig where
  jax_debug_nans : Bool
  jax_platform_name : String
  jit_enabled : Bool
  deriving DecidableEq, Repr

/-- The descriptor handed to the external `ppo.training_loop` call, with the
JIT state of the backend at the moment of the call recorded. -/
structure TrainingCall where
  env : EnvHandle
  eval_env : EnvHandle
  bundle : NetworkBundle
  random_seed : Option Int
  jit_enabled_during_call : Bool
  deriving Repr

/-- What `main` produces observably: the training-call descriptor (or the
uncaught exception), the backend configuration after `main` finishes, and how
many environment handles were constructed before the outcome. -/
structure MainOutcome where
  result : Except PyError TrainingCall
  final_backend : BackendConfig
  envs_constructed : Nat
  deriving Repr

/-- Python `with jax.disable_jit(): body` — the context manager disables JIT
on entry and restores the previous JIT setting on exit, whether the body
returns or raises (scoped acquisition/release per the jax context-manager
semantics used by the source). -/
def withDisableJit (B : BackendConfig) (body : BackendConfig → Except PyError α) :
    Except PyError α × BackendConfig :=
  let inner : BackendConfig := { B with jit_enabled := false }
  (body inner, { inner with jit_enabled := B.jit_enabled })

/-- The body of `run_training_loop`: builds the network bundle, resolves the
seed, and calls `ppo.training_loop` (opaque; modelled as returning its call
descriptor, with the ambient JIT state recorded). -/
def run_training_loop (F : Flags) (env eval_env : EnvHandle)
    (B : BackendConfig) : Except PyError TrainingCall :=
  match resolve_network_bundle F with
  | .error e => .error e
  | .ok bundle =>
      .ok { env := env
            eval_env := eval_env
            bundle := bundle
            random_seed := resolve_random_seed F
            jit_enabled_during_call := B.jit_enabled }

/-- The two unconditional `config.update` calls at the top of `main`:
`config.update("jax_debug_nans", True)` when `FLAGS.jax_debug_nans` and
`config.update("jax_platform_name", "tpu")` when `FLAGS.use_tpu`. These are
plain assignments to the process-wide jax configuration, with no paired
restore anywhere in the file. -/
def config_updates (F : Flags) (B : BackendConfig) : BackendConfig :=
  let B1 := if F.jax_debug_nans then { B with jax_debug_nans := true } else B
  if F.use_tpu then { B1 with jax_platform_name := "tpu" } else B1

/-- `main(argv)`: applies the `config.update` calls, evaluates
`"Pong" in FLAGS.env_problem_name and FLAGS.xm` (a `TypeError` when the name
is `None`; the ROM-copying branch itself is an external side effect with no
observable here), constructs the train and eval environments, then runs
`run_training_loop` — inside `with jax.disable_jit():` when
`FLAGS.jax_debug_nans or FLAGS.disable_jit`, directly otherwise. -/
def main (F : Flags) (B0 : BackendConfig) : MainOutcome :=
  let B2 := config_updates F B0
  match F.env_problem_name with
  | none => { result := .error .typeError, final_backend := B2, envs_constructed := 0 }
  | some _ =>
      match make_env F F.batch_size with
      | .error e =>
          { result := .error e, final_backend := B2, envs_constructed := 0 }
      | .ok env =>
          match make_env F F.eval_batch_size with
          | .error e =>
              { result := .error e, final_backend := B2, envs_constructed := 1 }
          | .ok eval_env =>
              if F.jax_debug_nans || F.disable_jit then
                let p := withDisableJit B2 (run_training_loop F env eval_env)
                { result := p.1, final_backend := p.2, envs_constructed := 2 }
              else
                { result := run_training_loop F env eval_env B2
                  final_backend := B2
                  envs_constructed := 2 }

/-! ## Concrete configurations used to instantiate the theorems -/

/-- A typical non-image configuration: `CartPole-v1` as the env problem. -/
def cartpole_flags : Flags :=
  { default_flags with env_problem_name := some "CartPole-v1" }

/-- An image-domain configuration: Pong with frame resizing. -/
def pong_flags : Flags :=
  { default_flags with env_problem_name := some "PongNoFrameskip-v4",
                       resize := true }

/-- The CartPole configuration with NaN debugging requested. -/
def nan_debug_flags : Flags :=
  { cartpole_flags with jax_debug_nans := true }

/-- A configuration giving an explicit gym-style name. -/
def gym_name_flags : Flags :=
  { default_flags with env_name := some "Acrobot-v1",
                       env_problem_name := some "CartPole-v1" }

/-- A backend state before `main` runs: no NaN debugging, CPU platform,
JIT enabled. -/
def initial_backend : BackendConfig :=
  { jax_debug_nans := false, jax_platform_name := "cpu", jit_enabled := true }

/-! ## Helper lemmas -/

/-- Reduction of `Except.map` on a success value. -/
theorem except_map_ok_eq {α β : Type} (f : α → β) (v : α) :
    Except.map f (Except.ok v : Except PyError α) = .ok (f v) := rfl

/-- Reduction of `Except.map` on an error value. -/
theorem except_map_error_eq {α β : Type} (f : α → β) (e : PyError) :
    Except.map f (Except.error e : Except PyError α) = .error e := rfl

/-- `common_layers` reads only `env_problem_name` and `flatten_dims`. -/
theorem common_layers_congr (F G : Flags)
    (h1 : F.env_problem_name = G.env_problem_name)
    (h2 : F.flatten_dims = G.flatten_dims) :
    common_layers F = common_layers G := by
  simp only [common_layers, h1, h2]

/-- Characterisation of the combined-mode branch of the network dispatch. -/
theorem resolve_network_bundle_comb (F : Flags)
    (hc : F.combined_network = true) :
    resolve_network_bundle F =
      .ok { policy_net_fun := none
            value_net_fun := none
            policy_and_value_net_fun := some { two_towers := F.two_towers }
            policy_optimizer_fun := none
            value_optimizer_fun := none
            policy_and_value_optimizer_fun :=
              some (get_optimizer_fun F.learning_rate) } := by
  simp [resolve_network_bundle, hc]

/-- Characterisation of the separate-mode branch of the network dispatch
when `common_layers()` succeeds. -/
theorem resolve_network_bundle_sep (F : Flags)
    (hc : F.combined_network = false) (l : List Layer)
    (h : common_layers F = .ok l) :
    resolve_network_bundle F =
      .ok { policy_net_fun := some { bottom_layers := l }
            value_net_fun := some { bottom_layers := l }
            policy_and_value_net_fun := none
            policy_optimizer_fun :=
              some (get_optimizer_fun F.policy_only_learning_rate)
            value_optimizer_fun :=
              some (get_optimizer_fun F.value_only_learning_rate)
            policy_and_value_optimizer_fun := none } := by
  simp [resolve_network_bundle, hc, h]

/-- In separate mode the dispatch propagates a `common_layers()` failure. -/
theorem resolve_network_bundle_sep_err (F : Flags)
    (hc : F.combined_network = false) (e : PyError)
    (h : common_layers F = .error e) :
    resolve_network_bundle F = .error e := by
  simp [resolve_network_bundle, hc, h]

/-- `make_env` fails its assertion when both name flags are falsy. -/
theorem make_env_assert (F : Flags) (b : Int)
    (h1 : strTruthy F.env_name = false)
    (h2 : strTruthy F.env_problem_name = false) :
    make_env F b = .error .assertionError := by
  simp [make_env, h1, h2]

/-! ## Claim theorems -/

/-- C1: for every option set on which the network dispatch succeeds, with
`combined_network=true` the bundle populates exactly the two combined-mode
fields (`policy_and_value_net_fun`, `policy_and_value_optimizer_fun`) and
leaves the four separate-mode fields `None`; with `combined_network=false`
exactly the four separate-mode fields are populated and the two combined-mode
fields are `None`. -/
theorem combined_network_controls_bundle_shape (F : Flags) :
    (resolve_network_bundle F).map (fun b =>
        (b.policy_and_value_net_fun.isSome,
         b.policy_and_value_optimizer_fun.isSome,
         b.policy_net_fun.isSome, b.value_net_fun.isSome,
         b.policy_optimizer_fun.isSome, b.value_optimizer_fun.isSome))
      = (resolve_network_bundle F).map (fun _ =>
          if F.combined_network then (true, true, false, false, false, false)
          else (false, false, true, true, true, true)) := by
  rcases Bool.eq_false_or_eq_true F.combined_network with hc | hc
  · rw [resolve_network_bundle_comb F hc]
    simp [hc, except_map_ok_eq]
  · cases h : common_layers F with
    | error e =>
        rw [resolve_network_bundle_sep_err F hc e h]
        simp [except_map_error_eq]
    | ok l =>
        rw [resolve_network_bundle_sep F hc l h]
        simp [hc, except_map_ok_eq]

/-- C2: when `env_name` is falsy and `env_problem_name` is falsy (`None` or
`""`), `main` raises before any environment handle (and hence any network)
is constructed: a `TypeError` at the `"Pong" in FLAGS.env_problem_name`
check when the name is `None`, an `AssertionError` in `make_env` when it is
empty. -/
theorem missing_env_identifier_fails_fast (F : Flags) (B : BackendConfig)
    (h1 : strTruthy F.env_name = false)
    (h2 : strTruthy F.env_problem_name = false) :
    ((main F B).result = .error .typeError ∨
     (main F B).result = .error .assertionError)
    ∧ (main F B).envs_constructed = 0 := by
  cases hn : F.env_problem_name with
  | none => simp [main, hn]
  | some s =>
      have hme := make_env_assert F F.batch_size h1 h2
      simp [main, hn, hme]

/-- C2 witness: with all flags at their defaults except
`env_problem_name=""`, `main` fails before constructing any environment. -/
theorem missing_env_identifier_fails_fast_witness :
    ((main { default_flags with env_problem_name := some "" }
        initial_backend).result = .error .typeError ∨
     (main { default_flags with env_problem_name := some "" }
        initial_backend).result = .error .assertionError)
    ∧ (main { default_flags with env_problem_name := some "" }
        initial_backend).envs_constructed = 0 :=
  missing_env_identifier_fails_fast
    { default_flags with env_problem_name := some "" }
    initial_backend (by decide) (by decide)

/-- C3: exactly one learning-rate binding path is exercised — combined mode
binds the single optimizer factory to `learning_rate` (separate factories
absent), separate mode binds the policy factory to
`policy_only_learning_rate` and the value factory to
`value_only_learning_rate` (combined factory absent) — and the rates never
cross-contaminate: changing `policy_only_learning_rate` alone leaves the
value network's optimizer factory identical, and symmetrically. -/
theorem optimizer_binding_paths (F : Flags) (x y : Float) :
    (resolve_network_bundle F).map (fun b =>
        (b.policy_and_value_optimizer_fun, b.policy_optimizer_fun,
         b.value_optimizer_fun))
      = (resolve_network_bundle F).map (fun _ =>
          if F.combined_network then
            (some (get_optimizer_fun F.learning_rate), none, none)
          else
            (none, some (get_optimizer_fun F.policy_only_learning_rate),
             some (get_optimizer_fun F.value_only_learning_rate)))
    ∧ (resolve_network_bundle
          { F with policy_only_learning_rate := x }).map
            (fun b => b.value_optimizer_fun)
        = (resolve_network_bundle F).map (fun b => b.value_optimizer_fun)
    ∧ (resolve_network_bundle
          { F with value_only_learning_rate := y }).map
            (fun b => b.policy_optimizer_fun)
        = (resolve_network_bundle F).map (fun b => b.policy_optimizer_fun) := by
  have hp : common_layers { F with policy_only_learning_rate := x }
      = common_layers F := common_layers_congr _ _ rfl rfl
  have hv : common_layers { F with value_only_learning_rate := y }
      = common_layers F := common_layers_congr _ _ rfl rfl
  rcases Bool.eq_false_or_eq_true F.combined_network with hc | hc
  · have hcp : ({ F with policy_only_learning_rate := x } : Flags).combined_network
        = true := hc
    have hcv : ({ F with value_only_learning_rate := y } : Flags).combined_network
        = true := hc
    rw [resolve_network_bundle_comb F hc,
      resolve_network_bundle_comb { F with policy_only_learning_rate := x } hcp,
      resolve_network_bundle_comb { F with value_only_learning_rate := y } hcv]
    simp [hc, except_map_ok_eq]
  · have hcp : ({ F with policy_only_learning_rate := x } : Flags).combined_network
        = false := hc
    have hcv : ({ F with value_only_learning_rate := y } : Flags).combined_network
        = false := hc
    cases h : common_layers F with
    | error e =>
        rw [resolve_network_bundle_sep_err F hc e h,
          resolve_network_bundle_sep_err
            { F with policy_only_learning_rate := x } hcp e (hp.trans h),
          resolve_network_bundle_sep_err
            { F with value_only_learning_rate := y } hcv e (hv.trans h)]
        simp [hc, except_map_error_eq]
    | ok l =>
        rw [resolve_network_bundle_sep F hc l h,
          resolve_network_bundle_sep
            { F with policy_only_learning_rate := x } hcp l (hp.trans h),
          resolve_network_bundle_sep
            { F with value_only_learning_rate := y } hcv l (hv.trans h)]
        simp [hc, except_map_ok_eq]

/-- C4: seed resolution follows Python `int()` exactly — a parse success
yields that integer, a parse failure (malformed string) or an unset
(`None`) seed yields the `None` sentinel — and, being a total function into
`Option Int`, it never raises. -/
theorem random_seed_resolution (F : Flags) :
    (∀ s n, F.random_seed = some s → pyParseIntString s = some n →
        resolve_random_seed F = some n)
    ∧ (∀ s, F.random_seed = some s → pyParseIntString s = none →
        resolve_random_seed F = none)
    ∧ (F.random_seed = none → resolve_random_seed F = none) := by
  refine ⟨?_, ?_, ?_⟩ <;> intros <;> simp_all [resolve_random_seed, pyInt]

/-- C4 witness: seed `"17"` resolves to `17`, seed `"abc"` and an unset seed
both resolve to `None`. -/
theorem random_seed_resolution_witness :
    resolve_random_seed { default_flags with random_seed := some "17" }
        = some 17
    ∧ resolve_random_seed { default_flags with random_seed := some "abc" }
        = none
    ∧ resolve_random_seed default_flags = none :=
  ⟨(random_seed_resolution _).1 "17" 17 rfl (by decide),
   (random_seed_resolution _).2.1 "abc" rfl (by decide),
   (random_seed_resolution _).2.2 rfl⟩

/-- C5: with `resize=false`, a falsy `env_name`, and a truthy
`env_problem_name`, `make_env` returns the plain batched environment keyed
by `env_problem_name` with reward range `[-1, 1]` and the given batch size;
the rendering pipeline is never consulted, so varying the step-limit,
resize-target and output-dtype options leaves the result unchanged. -/
theorem resize_false_plain_env (F : Flags) (b : Int)
    (h1 : strTruthy F.env_name = false)
    (h2 : strTruthy F.env_problem_name = true)
    (h3 : F.resize = false) :
    make_env F b = .ok (.envProblem (F.env_problem_name.getD "") b (-1, 1))
    ∧ (∀ mt rh rw tpu,
        make_env { F with max_timestep := mt, resized_height := rh,
                          resized_width := rw, use_tpu := tpu } b
          = make_env F b) := by
  constructor
  · simp [make_env, h1, h2, h3]
  · intro mt rh rw tpu
    simp [make_env, h1, h2, h3]

/-- C5 witness: `CartPole-v1`, batch size 4, with the rendering options set
to arbitrary other values. -/
theorem resize_false_plain_env_witness :
    make_env cartpole_flags 4 = .ok (.envProblem "CartPole-v1" 4 (-1, 1))
    ∧ make_env { cartpole_flags with
                 max_timestep := some 99, resized_height := 1,
                 resized_width := 2, use_tpu := true } 4
      = make_env cartpole_flags 4 :=
  ⟨(resize_false_plain_env cartpole_flags 4 (by decide) (by decide) rfl).1,
   (resize_false_plain_env cartpole_flags 4 (by decide) (by decide) rfl).2
     (some 99) 1 2 true⟩

/-- C6: with `resize=true`, a falsy `env_name`, and a truthy
`env_problem_name`, `make_env` returns the rendered environment whose
wrapper takes `max_timestep` as the episode-step limit, enables frame
skip/max-pool and rendering, resizes to `(resized_height, resized_width)`,
forces sticky actions off, and uses output dtype `int32` exactly when
`use_tpu` is set and `None` otherwise. -/
theorem resize_true_rendered_env (F : Flags) (b : Int)
    (h1 : strTruthy F.env_name = false)
    (h2 : strTruthy F.env_problem_name = true)
    (h3 : F.resize = true) :
    make_env F b = .ok (.renderedEnvProblem (F.env_problem_name.getD "") b
      { rl_env_max_episode_steps := F.max_timestep
        maxskip_env := true
        rendered_env := true
        rendered_env_resize_to := (F.resized_height, F.resized_width)
        sticky_actions := false
        output_dtype := if F.use_tpu then some .int32 else none }
      (-1, 1)) := by
  simp [make_env, h1, h2, h3]

/-- C6 witness: the Pong configuration with `resize=true` and default
geometry, once without TPU (dtype unconstrained) and once with TPU
(dtype `int32`). -/
theorem resize_true_rendered_env_witness :
    make_env pong_flags 32 = .ok (.renderedEnvProblem "PongNoFrameskip-v4" 32
      { rl_env_max_episode_steps := none
        maxskip_env := true
        rendered_env := true
        rendered_env_resize_to := (105, 80)
        sticky_actions := false
        output_dtype := none }
      (-1, 1))
    ∧ make_env { pong_flags with use_tpu := true } 32
      = .ok (.renderedEnvProblem "PongNoFrameskip-v4" 32
        { rl_env_max_episode_steps := none
          maxskip_env := true
          rendered_env := true
          rendered_env_resize_to := (105, 80)
          sticky_actions := false
          output_dtype := some .int32 }
        (-1, 1)) :=
  ⟨resize_true_rendered_env pong_flags 32 (by decide) (by decide) rfl,
   resize_true_rendered_env { pong_flags with use_tpu := true } 32
     (by decide) (by decide) rfl⟩

/-- C7: `common_layers` returns the fixed Atari convolutional stack exactly
when the env-problem name contains `"Pong"`; otherwise it returns the
`[Div(255), Flatten(2)]` prefix exactly when `flatten_dims` is set,
followed by the fixed `[Dense 64, Tanh, Dense 64, Tanh]` stack. -/
theorem common_layers_selection (F : Flags) (epn : String)
    (h : F.env_problem_name = some epn) :
    (pyIn "Pong" epn = true → common_layers F = .ok [Layer.AtariCnn])
    ∧ (pyIn "Pong" epn = false → F.flatten_dims = true →
        common_layers F = .ok [Layer.Div 255.0, Layer.Flatten 2,
          Layer.Dense 64, Layer.Tanh, Layer.Dense 64, Layer.Tanh])
    ∧ (pyIn "Pong" epn = false → F.flatten_dims = false →
        common_layers F = .ok [Layer.Dense 64, Layer.Tanh,
          Layer.Dense 64, Layer.Tanh]) := by
  refine ⟨?_, ?_, ?_⟩ <;> intros <;>
    simp_all [common_layers, atari_layers]

/-- C7 witness: the Pong name selects the CNN stack; `CartPole-v1` selects
the dense stack, with and without the flatten prefix. -/
theorem common_layers_selection_witness :
    common_layers pong_flags = .ok [Layer.AtariCnn]
    ∧ common_layers { cartpole_flags with flatten_dims := true }
      = .ok [Layer.Div 255.0, Layer.Flatten 2,
          Layer.Dense 64, Layer.Tanh, Layer.Dense 64, Layer.Tanh]
    ∧ common_layers cartpole_flags
      = .ok [Layer.Dense 64, Layer.Tanh, Layer.Dense 64, Layer.Tanh] :=
  ⟨(common_layers_selection pong_flags "PongNoFrameskip-v4" rfl).1 (by decide),
   (common_layers_selection { cartpole_flags with flatten_dims := true }
      "CartPole-v1" rfl).2.1 (by decide) rfl,
   (common_layers_selection cartpole_flags "CartPole-v1" rfl).2.2
      (by decide) rfl⟩

/-- C9: a truthy `env_name` takes precedence: `make_env` returns the bare
gym environment built from `env_name` alone, and the `env_problem_name`
constructor path is never reached — the result is unchanged under any
`env_problem_name` and any `resize` setting. -/
theorem env_name_precedence (F : Flags) (b : Int)
    (h : strTruthy F.env_name = true) :
    make_env F b = .ok (.gymEnv (F.env_name.getD ""))
    ∧ (∀ epn r, make_env { F with env_problem_name := epn, resize := r } b
        = .ok (.gymEnv (F.env_name.getD ""))) := by
  refine ⟨?_, ?_⟩ <;> intros <;> simp [make_env, h]

/-- C9 witness: an explicit `Acrobot-v1` gym name wins over the
`CartPole-v1` env-problem name, also after changing the env-problem name
and `resize`. -/
theorem env_name_precedence_witness :
    make_env gym_name_flags 32 = .ok (.gymEnv "Acrobot-v1")
    ∧ make_env { gym_name_flags with
                 env_problem_name := some "Pong", resize := true } 32
      = .ok (.gymEnv "Acrobot-v1") :=
  ⟨(env_name_precedence gym_name_flags 32 (by decide)).1,
   (env_name_precedence gym_name_flags 32 (by decide)).2
     (some "Pong") true⟩

/-- The backend configuration after `main` is exactly the one produced by
the two `config.update` calls: the JIT toggle of `with jax.disable_jit():`
is restored on exit, the config updates are not. -/
theorem main_final_backend (F : Flags) (B : BackendConfig) :
    (main F B).final_backend = config_updates F B := by
  unfold main
  cases hn : F.env_problem_name <;> simp
  cases hm1 : make_env F F.batch_size <;> simp
  cases hm2 : make_env F F.eval_batch_size <;> simp
  cases hje : F.jax_debug_nans <;> cases hjd : F.disable_jit <;>
    simp [hje, hjd, withDisableJit]

/-- Field-level description of the `config.update` effects. -/
theorem config_updates_spec (F : Flags) (B : BackendConfig) :
    (config_updates F B).jax_debug_nans
        = (B.jax_debug_nans || F.jax_debug_nans)
    ∧ (config_updates F B).jit_enabled = B.jit_enabled
    ∧ (config_updates F B).jax_platform_name
        = (if F.use_tpu then "tpu" else B.jax_platform_name) := by
  cases hj : F.jax_debug_nans <;> cases ht : F.use_tpu <;>
    simp [config_updates, hj, ht]

/-- When `main` reaches the training call, the JIT state in effect is
`false` if either debug flag requested `disable_jit`, and the ambient
post-update JIT state otherwise. -/
theorem main_jit_during (F : Flags) (B : BackendConfig) :
    (main F B).result.map (fun tc => tc.jit_enabled_during_call)
      = (main F B).result.map (fun _ =>
          if F.jax_debug_nans || F.disable_jit then false
          else (config_updates F B).jit_enabled) := by
  unfold main
  cases hn : F.env_problem_name <;>
    simp [except_map_ok_eq, except_map_error_eq]
  cases hm1 : make_env F F.batch_size <;>
    simp [hm1, except_map_ok_eq, except_map_error_eq]
  cases hm2 : make_env F F.eval_batch_size <;>
    simp [hm2, except_map_ok_eq, except_map_error_eq]
  cases hje : F.jax_debug_nans <;> cases hjd : F.disable_jit <;>
    simp only [hje, hjd, withDisableJit, run_training_loop, Bool.or_self,
      Bool.or_true, Bool.true_or, Bool.false_or, if_true, if_false] <;>
    cases hr : resolve_network_bundle F <;>
    simp [hr, except_map_ok_eq, except_map_error_eq]

/-- C8 counterexample: with `jax_debug_nans=true` (CartPole otherwise
default) and an initial backend with NaN debugging off, `main` returns with
the backend's `jax_debug_nans` mode still set — a backend mode touched by
the run that is not restored after the training call, i.e. a persistent
process-wide mutation, contradicting the claim as stated. -/
theorem backend_mode_not_restored_counterexample :
    nan_debug_flags.jax_debug_nans = true
    ∧ initial_backend.jax_debug_nans = false
    ∧ (main nan_debug_flags initial_backend).final_backend.jax_debug_nans
        = true
    ∧ (main nan_debug_flags initial_backend).final_backend
        ≠ initial_backend := by
  refine ⟨rfl, rfl, rfl, ?_⟩
  intro h
  exact Bool.false_ne_true (congrArg BackendConfig.jax_debug_nans h).symm

/-- C8 (amended): if either of `jax_debug_nans` or `disable_jit` is set the
training invocation runs with JIT disabled, otherwise with the ambient JIT
state; the JIT mode scoped by `with jax.disable_jit():` is restored after
the call returns or raises; but the `jax_debug_nans` config update is a
persistent process-wide mutation that survives `main`. -/
theorem jit_scoped_but_nan_debug_persists (F : Flags) (B : BackendConfig) :
    ((F.jax_debug_nans || F.disable_jit) = true →
        (main F B).result.map (fun tc => tc.jit_enabled_during_call)
          = (main F B).result.map (fun _ => false))
    ∧ ((F.jax_debug_nans || F.disable_jit) = false →
        (main F B).result.map (fun tc => tc.jit_enabled_during_call)
          = (main F B).result.map (fun _ => B.jit_enabled))
    ∧ (main F B).final_backend.jit_enabled = B.jit_enabled
    ∧ (main F B).final_backend.jax_debug_nans
        = (B.jax_debug_nans || F.jax_debug_nans) := by
  have h1 := main_final_backend F B
  have h2 := config_updates_spec F B
  have h3 := main_jit_during F B
  refine ⟨?_, ?_, ?_, ?_⟩
  · intro h
    simp only [h, if_true] at h3
    exact h3
  · intro h
    simp only [h, Bool.false_eq_true, if_false, h2.2.1] at h3
    exact h3
  · rw [h1]; exact h2.2.1
  · rw [h1]; exact h2.1

/-- C8 witness: with NaN debugging requested the training call runs with
JIT disabled and the JIT mode is restored afterwards; without either debug
flag the call runs with the ambient (enabled) JIT state. -/
theorem jit_scoped_but_nan_debug_persists_witness :
    (main nan_debug_flags initial_backend).result.map
        (fun tc => tc.jit_enabled_during_call)
      = (main nan_debug_flags initial_backend).result.map (fun _ => false)
    ∧ (main cartpole_flags initial_backend).result.map
        (fun tc => tc.jit_enabled_during_call)
      = (main cartpole_flags initial_backend).result.map (fun _ => true)
    ∧ (main nan_debug_flags initial_backend).final_backend.jit_enabled
        = true :=
  ⟨(jit_scoped_but_nan_debug_persists nan_debug_flags initial_backend).1
      (by decide),
   (jit_scoped_but_nan_debug_persists cartpole_flags initial_backend).2.1
      (by decide),
   (jit_scoped_but_nan_debug_persists nan_debug_flags
      initial_backend).2.2.1⟩

/-- C10: with a truthy `env_name`, `make_env` ignores its batch-size
argument and the resize/rendering/TPU options entirely, returning the bare
gym environment from `env_name` alone (no batching, no reward range);
consequently the train and eval environments `main` constructs are
identical regardless of `batch_size` and `eval_batch_size`. -/
theorem env_name_ignores_batch_and_problem_options (F : Flags)
    (B : BackendConfig) (b1 b2 : Int)
    (h : strTruthy F.env_name = true) :
    make_env F b1 = make_env F b2
    ∧ make_env F b1 = .ok (.gymEnv (F.env_name.getD ""))
    ∧ (∀ r rh rw tpu,
        make_env { F with resize := r, resized_height := rh,
                          resized_width := rw, use_tpu := tpu } b1
          = make_env F b1)
    ∧ (main F B).result.map (fun tc => tc.env)
        = (main F B).result.map (fun tc => tc.eval_env)
    ∧ (main F B).result.map (fun tc => tc.env)
        = (main F B).result.map
            (fun _ => EnvHandle.gymEnv (F.env_name.getD "")) := by
  have hme1 : make_env F F.batch_size = .ok (.gymEnv (F.env_name.getD "")) := by
    simp [make_env, h]
  have hme2 : make_env F F.eval_batch_size
      = .ok (.gymEnv (F.env_name.getD "")) := by
    simp [make_env, h]
  refine ⟨by simp [make_env, h], by simp [make_env, h], ?_, ?_, ?_⟩
  · intro r rh rw tpu
    simp [make_env, h]
  · unfold main
    cases hn : F.env_problem_name <;>
      simp [hme1, hme2, except_map_ok_eq, except_map_error_eq]
    cases hje : F.jax_debug_nans <;> cases hjd : F.disable_jit <;>
      simp only [hje, hjd, withDisableJit, run_training_loop, Bool.or_self,
        Bool.or_true, Bool.true_or, Bool.false_or, if_true, if_false] <;>
      cases hr : resolve_network_bundle F <;>
      simp [hr, except_map_ok_eq, except_map_error_eq]
  · unfold main
    cases hn : F.env_problem_name <;>
      simp [hme1, hme2, except_map_ok_eq, except_map_error_eq]
    cases hje : F.jax_debug_nans <;> cases hjd : F.disable_jit <;>
      simp only [hje, hjd, withDisableJit, run_training_loop, Bool.or_self,
        Bool.or_true, Bool.true_or, Bool.false_or, if_true, if_false] <;>
      cases hr : resolve_network_bundle F <;>
      simp [hr, except_map_ok_eq, except_map_error_eq]

/-- C10 witness: with the `Acrobot-v1` gym name set, batch sizes 32 and 4
(and changed rendering options) give the same bare gym environment, and the
train and eval environments of `main` coincide. -/
theorem env_name_ignores_batch_witness :
    make_env gym_name_flags 32 = make_env gym_name_flags 4
    ∧ make_env gym_name_flags 32 = .ok (.gymEnv "Acrobot-v1")
    ∧ make_env { gym_name_flags with
                 resize := true, resized_height := 1, resized_width := 2,
                 use_tpu := true } 32
        = make_env gym_name_flags 32
    ∧ (main gym_name_flags initial_backend).result.map (fun tc => tc.env)
        = (main gym_name_flags initial_backend).result.map
            (fun tc => tc.eval_env) :=
  ⟨(env_name_ignores_batch_and_problem_options gym_name_flags
      initial_backend 32 4 (by decide)).1,
   (env_name_ignores_batch_and_problem_options gym_name_flags
      initial_backend 32 4 (by decide)).2.1,
   (env_name_ignores_batch_and_problem_options gym_name_flags
      initial_backend 32 4 (by decide)).2.2.1 true 1 2 true,
   (env_name_ignores_batch_and_problem_options gym_name_flags
      initial_backend 32 4 (by decide)).2.2.2.1⟩

end PpoMain
